import Mathlib

/-!
Verification of the api/v2 resource handlers of the atmosphere repository
(src/api/v2/views.py) against their specification.

The view classes are shallowly embedded: each Django queryset expression
becomes a pure function over an explicit in-memory database, exceptions
become values of an explicit error type, and the per-method permission
logic becomes boolean predicates over the requesting user and the HTTP
method.  Entities carry only the fields the filters in views.py consult.
-/

namespace Atmosphere

/-- HTTP request methods relevant to the dispatch and permission layers. -/
inductive Method
  | get
  | head
  | options
  | trace
  | post
  | put
  | patch
  | delete
deriving DecidableEq, BEq

/-- A method is safe when it is read-only at the HTTP level
(GET, HEAD, OPTIONS, TRACE). -/
def Method.isSafe : Method → Bool
  | .get => true
  | .head => true
  | .options => true
  | .trace => true
  | _ => false

/-- Start/end validity window of a time-bounded row, instants as naturals. -/
structure Window where
  startTime : Nat
  endTime : Nat
deriving DecidableEq

/-- Modelled from the spec: the predicate `only_current` from core.query is
not under src/.  A row is currently active when the current instant falls
within its start/end validity window. -/
def only_current (now : Nat) (w : Window) : Bool :=
  w.startTime ≤ now && now ≤ w.endTime

/-- The requesting user (core.models.user.AtmosphereUser), reduced to the
fields the views and permission classes consult. -/
structure AtmosphereUser where
  username : String
  isAuthenticated : Bool
  isStaff : Bool
deriving DecidableEq

/-- A group (core.models.Group) with its many-to-many provider relation,
recorded as the ids of the providers belonging to the group. -/
structure Group where
  name : String
  providerIds : List Nat
deriving DecidableEq

/-- A provider row: id, the `active` flag, and its validity window. -/
structure Provider where
  id : Nat
  active : Bool
  window : Window
deriving DecidableEq

/-- A size row: id, owning provider (size_set is the reverse relation),
and its validity window. -/
structure Size where
  id : Nat
  providerId : Nat
  window : Window
deriving DecidableEq

/-- A project row: id, the name of its owner, and its validity window. -/
structure Project where
  id : Nat
  ownerName : String
  window : Window
deriving DecidableEq

/-- An instance row: id, the project it belongs to, its creator, and its
validity window. -/
structure Instance where
  id : Nat
  projectId : Nat
  createdBy : String
  window : Window
deriving DecidableEq

/-- A volume row: id, size attribute, provider, the project it belongs to,
its creator, and its validity window. -/
structure Volume where
  id : Nat
  size : Nat
  providerId : Nat
  projectId : Nat
  createdBy : String
  window : Window
deriving DecidableEq

/-- A tag row: id, name, and the user recorded as its owner. -/
structure Tag where
  id : Nat
  name : String
  user : String
deriving DecidableEq

/-- An identity row: id, owning user, and provider. -/
structure Identity where
  id : Nat
  userName : String
  providerId : Nat
deriving DecidableEq

/-- An image bookmark row (core.models.ApplicationBookmark): id and the
user recorded on it. -/
structure ImageBookmark where
  id : Nat
  user : String
deriving DecidableEq

/-- The persisted state the handlers query: one table per entity type. -/
structure Database where
  groups : List Group
  providers : List Provider
  sizes : List Size
  projects : List Project
  instances : List Instance
  volumes : List Volume
  tags : List Tag
  identities : List Identity
  imageBookmarks : List ImageBookmark
deriving DecidableEq

/-- Errors a handler surfaces to the caller, one per response class. -/
inductive ApiError
  | notFound
  | permissionDenied
  | methodNotAllowed
  | validationError
  | serverError
deriving DecidableEq

/-- HTTP status code carried by each error class. -/
def ApiError.status : ApiError → Nat
  | .notFound => 404
  | .permissionDenied => 403
  | .methodNotAllowed => 405
  | .validationError => 400
  | .serverError => 500

/-!
Scoped query resolvers.  Each function embeds one get_queryset override
from views.py; exception propagation from the eponymous-group lookup is
made explicit with Except.
-/

/-- Modelled from the spec: Group.objects.get(name=...) — the core.models
Group manager is not under src/.  Resolving a group by exact name match
fails with NotFound when no such group exists, and the spec requires this
failure to surface as an authorization-style NotFound, not a server
error. -/
def getGroupByName (db : Database) (nm : String) : Except ApiError Group :=
  match db.groups.find? (fun g => g.name == nm) with
  | some g => Except.ok g
  | none => Except.error ApiError.notFound

/-- ProviderViewSet.get_queryset: the providers of the group named after
the requesting user, filtered by only_current() and active=True. -/
def providerGetQueryset (db : Database) (now : Nat) (u : AtmosphereUser) :
    Except ApiError (List Provider) :=
  match getGroupByName db u.username with
  | Except.error e => Except.error e
  | Except.ok g =>
      Except.ok (db.providers.filter
        (fun p => g.providerIds.contains p.id && only_current now p.window && p.active))

/-- SizeViewSet.get_queryset: sizes filtered by only_current() whose
provider is in the user visible provider set. -/
def sizeGetQueryset (db : Database) (now : Nat) (u : AtmosphereUser) :
    Except ApiError (List Size) :=
  match getGroupByName db u.username with
  | Except.error e => Except.error e
  | Except.ok g =>
      let provs := db.providers.filter
        (fun p => g.providerIds.contains p.id && only_current now p.window && p.active)
      Except.ok (db.sizes.filter
        (fun s => only_current now s.window && provs.any (fun p => p.id == s.providerId)))

/-- IdentityViewSet.get_queryset: identities of the requesting user whose
provider is in the user visible provider set. -/
def identityGetQueryset (db : Database) (now : Nat) (u : AtmosphereUser) :
    Except ApiError (List Identity) :=
  match getGroupByName db u.username with
  | Except.error e => Except.error e
  | Except.ok g =>
      let provs := db.providers.filter
        (fun p => g.providerIds.contains p.id && only_current now p.window && p.active)
      Except.ok (db.identities.filter
        (fun i => i.userName == u.username && provs.any (fun p => p.id == i.providerId)))

/-- ProjectViewSet.get_queryset: projects filtered by only_current() and
owner name equal to the requesting user username. -/
def projectGetQueryset (db : Database) (now : Nat) (u : AtmosphereUser) :
    List Project :=
  db.projects.filter
    (fun p => only_current now p.window && p.ownerName == u.username)

/-- VolumeViewSet.get_queryset: volumes filtered by only_current() and
created_by equal to the requesting user. -/
def volumeGetQueryset (db : Database) (now : Nat) (u : AtmosphereUser) :
    List Volume :=
  db.volumes.filter
    (fun v => only_current now v.window && v.createdBy == u.username)

/-- ImageBookmarkViewSet.get_queryset: bookmarks whose user equals the
requesting user. -/
def imageBookmarkGetQueryset (db : Database) (u : AtmosphereUser) :
    List ImageBookmark :=
  db.imageBookmarks.filter (fun b => b.user == u.username)

/-!
Object resolution and detail routes.  get_object filters the scoped
queryset by primary key and fails with NotFound when no visible row
matches, which the related-list actions inherit.
-/

/-- Resolution of a single project through the scoped queryset, as
self.get_object() does for ProjectViewSet. -/
def projectGetObject (db : Database) (now : Nat) (u : AtmosphereUser) (pk : Nat) :
    Except ApiError Project :=
  match (projectGetQueryset db now u).find? (fun p => p.id == pk) with
  | some p => Except.ok p
  | none => Except.error ApiError.notFound

/-- ProjectViewSet.instances: resolve the parent project through the scoped
queryset, then list project.instances with no further filtering. -/
def projectInstances (db : Database) (now : Nat) (u : AtmosphereUser) (pk : Nat) :
    Except ApiError (List Instance) :=
  match projectGetObject db now u pk with
  | Except.error e => Except.error e
  | Except.ok p => Except.ok (db.instances.filter (fun i => i.projectId == p.id))

/-- ProjectViewSet.volumes: resolve the parent project through the scoped
queryset, then list project.volumes with no further filtering. -/
def projectVolumes (db : Database) (now : Nat) (u : AtmosphereUser) (pk : Nat) :
    Except ApiError (List Volume) :=
  match projectGetObject db now u pk with
  | Except.error e => Except.error e
  | Except.ok p => Except.ok (db.volumes.filter (fun v => v.projectId == p.id))

/-- Resolution of a single provider through the scoped queryset, as
self.get_object() does for ProviderViewSet. -/
def providerGetObject (db : Database) (now : Nat) (u : AtmosphereUser) (pk : Nat) :
    Except ApiError Provider :=
  match providerGetQueryset db now u with
  | Except.error e => Except.error e
  | Except.ok qs =>
      match qs.find? (fun p => p.id == pk) with
      | some p => Except.ok p
      | none => Except.error ApiError.notFound

/-- ProviderViewSet.sizes: resolve the parent provider through the scoped
queryset, then list provider.size_set with no only_current() filter. -/
def providerSizes (db : Database) (now : Nat) (u : AtmosphereUser) (pk : Nat) :
    Except ApiError (List Size) :=
  match providerGetObject db now u pk with
  | Except.error e => Except.error e
  | Except.ok p => Except.ok (db.sizes.filter (fun s => s.providerId == p.id))

/-!
Filtering.  VolumeFilter declares min_size/max_size as gte/lte range
bounds on the size attribute, on top of the scoped volume queryset.
-/

/-- The VolumeFilter range predicate applied by the volume list operation:
optional provider id exact match and inclusive min_size/max_size bounds. -/
def volumeList (db : Database) (now : Nat) (u : AtmosphereUser)
    (providerId minSize maxSize : Option Nat) : List Volume :=
  (volumeGetQueryset db now u).filter (fun v =>
    (match providerId with
     | some pid => v.providerId == pid
     | none => true) &&
    (match minSize with
     | some m => decide (m ≤ v.size)
     | none => true) &&
    (match maxSize with
     | some n => decide (v.size ≤ n)
     | none => true))

/-!
Permission classes (rest_framework.permissions) and the per-method
permission swaps performed in get_permissions.
-/

/-- IsAuthenticatedOrReadOnly: safe methods are always allowed, writes
require an authenticated user. -/
def IsAuthenticatedOrReadOnly (m : Method) (u : AtmosphereUser) : Bool :=
  m.isSafe || u.isAuthenticated

/-- IsAuthenticated: every method requires an authenticated user. -/
def IsAuthenticated (_ : Method) (u : AtmosphereUser) : Bool :=
  u.isAuthenticated

/-- IsAdminUser: every method requires an authenticated staff user. -/
def IsAdminUser (_ : Method) (u : AtmosphereUser) : Bool :=
  u.isAuthenticated && u.isStaff

/-- TagViewSet permission policy: get_permissions swaps the class-level
IsAuthenticatedOrReadOnly for IsAdminUser on DELETE and PUT. -/
def tagHasPermission (m : Method) (u : AtmosphereUser) : Bool :=
  if m = Method.delete ∨ m = Method.put then IsAdminUser m u
  else IsAuthenticatedOrReadOnly m u

/-- ProviderViewSet permission policy: class-level IsAuthenticated, with
get_permissions swapping in IsAdminUser on DELETE and PUT. -/
def providerHasPermission (m : Method) (u : AtmosphereUser) : Bool :=
  if m = Method.delete ∨ m = Method.put then IsAdminUser m u
  else IsAuthenticated m u

/-- Modelled from the spec: the framework default permission policy
applied by every view class that declares no permission_classes of its
own (the DEFAULT_PERMISSION_CLASSES setting is not under src/) —
authenticated users may read, a write requires authentication, the
IsAuthenticatedOrReadOnly equivalent. -/
def defaultHasPermission (m : Method) (u : AtmosphereUser) : Bool :=
  IsAuthenticatedOrReadOnly m u

/-- The seventeen view classes of api/v2/views.py. -/
inductive ViewSet
  | TagViewSet
  | UserViewSet
  | ProjectViewSet
  | ImageViewSet
  | ProviderViewSet
  | IdentityViewSet
  | QuotaViewSet
  | AllocationViewSet
  | VolumeViewSet
  | InstanceViewSet
  | InstanceActionViewSet
  | VolumeActionViewSet
  | ProviderTypeViewSet
  | PlatformTypeViewSet
  | ProviderMachineViewSet
  | ImageBookmarkViewSet
  | SizeViewSet
deriving DecidableEq

/-- Per-handler permission predicate: Tag and Provider override the
default policy, every other view class inherits it. -/
def handlerHasPermission : ViewSet → Method → AtmosphereUser → Bool
  | ViewSet.TagViewSet => tagHasPermission
  | ViewSet.ProviderViewSet => providerHasPermission
  | _ => defaultHasPermission

/-- The http_method_names whitelist declared on ProviderViewSet. -/
def providerHttpMethodNames : List Method :=
  [Method.get, Method.head, Method.options, Method.trace]

/-- Provider dispatch: the http_method_names check rejects a disallowed
verb with MethodNotAllowed before permissions or queryset resolution run;
the handler has no write path at all. -/
def providerDispatch (db : Database) (now : Nat) (m : Method)
    (u : AtmosphereUser) (pk : Option Nat) : Except ApiError (List Provider) :=
  if providerHttpMethodNames.contains m then
    if providerHasPermission m u then
      match pk with
      | none => providerGetQueryset db now u
      | some i =>
          match providerGetObject db now u i with
          | Except.error e => Except.error e
          | Except.ok p => Except.ok [p]
    else Except.error ApiError.permissionDenied
  else Except.error ApiError.methodNotAllowed

/-!
Create, retrieve and delete operations for Tag and ImageBookmark.
-/

/-- A validated Tag create payload: the name plus whatever user field the
caller may have included. -/
structure TagPayload where
  name : String
  user : Option String
deriving DecidableEq

/-- The user recorded on a saved tag: a user keyword argument passed to
serializer.save overrides any user field carried by the payload. -/
def savedTagUser (p : TagPayload) (kwargUser : Option String) : String :=
  match kwargUser with
  | some s => s
  | none => p.user.getD ""

/-- TagViewSet.perform_create: serializer.save(user=self.request.user)
stamps the requesting user on the created row before persisting. -/
def tagPerformCreate (db : Database) (u : AtmosphereUser) (p : TagPayload)
    (newId : Nat) : Database × Tag :=
  let t : Tag := { id := newId, name := p.name, user := savedTagUser p (some u.username) }
  ({ db with tags := db.tags ++ [t] }, t)

/-- Tag retrieve: reads go through the unscoped Tag.objects.all()
queryset; a missing id is NotFound. -/
def tagRetrieve (db : Database) (pk : Nat) : Except ApiError Tag :=
  match db.tags.find? (fun t => t.id == pk) with
  | some t => Except.ok t
  | none => Except.error ApiError.notFound

/-- Tag delete: permissions are checked before object resolution, so a
requester failing IsAdminUser is rejected regardless of the row; an
allowed delete removes the row and answers 204. -/
def tagDelete (db : Database) (u : AtmosphereUser) (pk : Nat) :
    Except ApiError (Database × Nat) :=
  if tagHasPermission Method.delete u then
    match db.tags.find? (fun t => t.id == pk) with
    | some _ =>
        Except.ok ({ db with tags := db.tags.filter (fun t => !(t.id == pk)) }, 204)
    | none => Except.error ApiError.notFound
  else Except.error ApiError.permissionDenied

/-- A validated ImageBookmark create payload carrying the user designated
by the caller. -/
structure BookmarkPayload where
  user : String
deriving DecidableEq

/-- Modelled from the spec: ImageBookmarkViewSet declares no
perform_create override, so the framework default persists the validated
payload unchanged — the serializer and the generic create mixin are not
under src/.  In particular no requesting-user stamping happens. -/
def imageBookmarkPerformCreate (db : Database) (_u : AtmosphereUser)
    (p : BookmarkPayload) (newId : Nat) : Database × ImageBookmark :=
  let b : ImageBookmark := { id := newId, user := p.user }
  ({ db with imageBookmarks := db.imageBookmarks ++ [b] }, b)

/-- ImageBookmark retrieve: get_object filters the scoped queryset by
primary key, so only rows whose user equals the requester are visible. -/
def imageBookmarkGetObject (db : Database) (u : AtmosphereUser) (pk : Nat) :
    Except ApiError ImageBookmark :=
  match (imageBookmarkGetQueryset db u).find? (fun b => b.id == pk) with
  | some b => Except.ok b
  | none => Except.error ApiError.notFound

/-!
Concrete fixtures used by witnesses and by the existential parts of the
claims.  The instant of evaluation is 10 throughout.
-/

/-- A non-staff authenticated user. -/
def uAlice : AtmosphereUser :=
  { username := "alice", isAuthenticated := true, isStaff := false }

/-- A staff (administrator) user, with no eponymous group in exDB. -/
def uRoot : AtmosphereUser :=
  { username := "root", isAuthenticated := true, isStaff := true }

/-- An unauthenticated requester. -/
def uAnon : AtmosphereUser :=
  { username := "", isAuthenticated := false, isStaff := false }

/-- A validity window containing the instant 10. -/
def wOpen : Window := { startTime := 0, endTime := 100 }

/-- A validity window that ended before the instant 10. -/
def wPast : Window := { startTime := 0, endTime := 5 }

/-- The eponymous group of uAlice, holding provider 1. -/
def gAlice : Group := { name := "alice", providerIds := [1] }

/-- An active, current provider visible to uAlice. -/
def pv1 : Provider := { id := 1, active := true, window := wOpen }

/-- A currently active size of provider 1. -/
def sz1 : Size := { id := 1, providerId := 1, window := wOpen }

/-- An expired size of provider 1: still in size_set, never in the scoped
size list. -/
def sz2 : Size := { id := 2, providerId := 1, window := wPast }

/-- A currently active project owned by alice. -/
def pr1 : Project := { id := 1, ownerName := "alice", window := wOpen }

/-- An expired project owned by alice. -/
def pr2 : Project := { id := 2, ownerName := "alice", window := wPast }

/-- An instance belonging to project 1. -/
def in1 : Instance :=
  { id := 1, projectId := 1, createdBy := "alice", window := wOpen }

/-- A volume belonging to project 1, created by alice, of size 50. -/
def vol1 : Volume :=
  { id := 1, size := 50, providerId := 1, projectId := 1,
    createdBy := "alice", window := wOpen }

/-- A pre-existing tag owned by alice. -/
def tg1 : Tag := { id := 1, name := "featured", user := "alice" }

/-- A pre-existing bookmark of alice. -/
def bm1 : ImageBookmark := { id := 1, user := "alice" }

/-- The fixture database. -/
def exDB : Database :=
  { groups := [gAlice]
  , providers := [pv1]
  , sizes := [sz1, sz2]
  , projects := [pr1, pr2]
  , instances := [in1]
  , volumes := [vol1]
  , tags := [tg1]
  , identities := []
  , imageBookmarks := [bm1] }

/-!
Claims.
-/

/-- C1.  For every requesting user U and every project P in the database,
P appears in the project list operation result iff the P owner name equals
the U username and P is currently active at the instant of the request. -/
theorem project_list_membership (db : Database) (now : Nat)
    (u : AtmosphereUser) (p : Project) (hp : p ∈ db.projects) :
    p ∈ projectGetQueryset db now u ↔
      (p.ownerName = u.username ∧ only_current now p.window = true) := by
  unfold projectGetQueryset
  rw [List.mem_filter]
  constructor
  · rintro ⟨-, hpred⟩
    rw [Bool.and_eq_true] at hpred
    exact ⟨by simpa using hpred.2, hpred.1⟩
  · rintro ⟨howner, hcur⟩
    refine ⟨hp, ?_⟩
    rw [Bool.and_eq_true]
    exact ⟨hcur, by simpa using howner⟩

/-- Witness for C1 at the fixture database: project pr1 is owned by alice
and currently active at instant 10, and it appears in the list. -/
theorem project_list_membership_witness :
    pr1 ∈ exDB.projects ∧
      (pr1 ∈ projectGetQueryset exDB 10 uAlice ↔
        (pr1.ownerName = uAlice.username ∧ only_current 10 pr1.window = true)) :=
  ⟨by decide, project_list_membership exDB 10 uAlice pr1 (by decide)⟩

/-- C4.  For every user U and every valid Tag create payload, the
persisted row records U as its user, independent of any owner field in the
payload. -/
theorem tag_create_stamps_requesting_user (db : Database)
    (u : AtmosphereUser) (p : TagPayload) (newId : Nat) :
    (tagPerformCreate db u p newId).2.user = u.username ∧
      (tagPerformCreate db u p newId).2 ∈ (tagPerformCreate db u p newId).1.tags := by
  unfold tagPerformCreate savedTagUser
  simp

/-- C7.  Every volume returned by the volume list operation under
min_size=m and max_size=n satisfies m ≤ size ≤ n, both bounds
inclusive. -/
theorem volume_list_size_bounds (db : Database) (now : Nat)
    (u : AtmosphereUser) (providerId : Option Nat) (m n : Nat) (v : Volume)
    (hv : v ∈ volumeList db now u providerId (some m) (some n)) :
    m ≤ v.size ∧ v.size ≤ n := by
  unfold volumeList at hv
  rw [List.mem_filter] at hv
  rcases hv with ⟨-, hpred⟩
  rw [Bool.and_eq_true, Bool.and_eq_true] at hpred
  rcases hpred with ⟨⟨-, hmin⟩, hmax⟩
  exact ⟨of_decide_eq_true hmin, of_decide_eq_true hmax⟩

/-- Witness for C7 at the fixture database: volume vol1 of size 50 is
returned under min_size=10, max_size=60 and satisfies both bounds. -/
theorem volume_list_size_bounds_witness :
    vol1 ∈ volumeList exDB 10 uAlice none (some 10) (some 60) ∧
      (10 ≤ vol1.size ∧ vol1.size ≤ 60) :=
  ⟨by decide, volume_list_size_bounds exDB 10 uAlice none 10 60 vol1 (by decide)⟩

/-- C2.  When the requesting user has no group whose name equals the
username, resolving Provider, Size, or Identity visibility fails with
NotFound, carried to the caller as 404 and never as a 500 server
error. -/
theorem missing_eponymous_group_not_found (db : Database) (now : Nat)
    (u : AtmosphereUser) (hno : ∀ g ∈ db.groups, g.name ≠ u.username) :
    providerGetQueryset db now u = Except.error ApiError.notFound ∧
      sizeGetQueryset db now u = Except.error ApiError.notFound ∧
      identityGetQueryset db now u = Except.error ApiError.notFound ∧
      ApiError.status ApiError.notFound = 404 ∧
      ApiError.status ApiError.notFound ≠ 500 := by
  have hfind : db.groups.find? (fun g => g.name == u.username) = none := by
    rw [List.find?_eq_none]
    intro g hg
    simpa using hno g hg
  refine ⟨?_, ?_, ?_, rfl, by decide⟩ <;>
    simp [providerGetQueryset, sizeGetQueryset, identityGetQueryset,
      getGroupByName, hfind]

/-- Witness for C2: the fixture database holds no group named root, so
all three resolvers answer NotFound for uRoot. -/
theorem missing_eponymous_group_not_found_witness :
    providerGetQueryset exDB 10 uRoot = Except.error ApiError.notFound ∧
      sizeGetQueryset exDB 10 uRoot = Except.error ApiError.notFound ∧
      identityGetQueryset exDB 10 uRoot = Except.error ApiError.notFound ∧
      ApiError.status ApiError.notFound = 404 ∧
      ApiError.status ApiError.notFound ≠ 500 :=
  missing_eponymous_group_not_found exDB 10 uRoot (by decide)

/-- C3.  Every view class other than TagViewSet and ProviderViewSet
follows the default policy: an authenticated user may always read, and an
unauthenticated write is rejected. -/
theorem default_policy_read_write (vs : ViewSet) (m : Method)
    (u : AtmosphereUser) (h1 : vs ≠ ViewSet.TagViewSet)
    (h2 : vs ≠ ViewSet.ProviderViewSet) :
    (m.isSafe = true → u.isAuthenticated = true →
        handlerHasPermission vs m u = true) ∧
      (m.isSafe = false → u.isAuthenticated = false →
        handlerHasPermission vs m u = false) := by
  cases vs
  all_goals first
    | exact absurd rfl h1
    | exact absurd rfl h2
    | refine ⟨fun ha hb => ?_, fun ha hb => ?_⟩ <;>
        simp [handlerHasPermission, defaultHasPermission,
          IsAuthenticatedOrReadOnly, ha, hb]

/-- Witness for C3 on QuotaViewSet: an authenticated GET is allowed and an
unauthenticated POST is rejected. -/
theorem default_policy_read_write_witness :
    handlerHasPermission ViewSet.QuotaViewSet Method.get uAlice = true ∧
      handlerHasPermission ViewSet.QuotaViewSet Method.post uAnon = false :=
  ⟨(default_policy_read_write ViewSet.QuotaViewSet Method.get uAlice
      (by decide) (by decide)).1 rfl rfl,
    (default_policy_read_write ViewSet.QuotaViewSet Method.post uAnon
      (by decide) (by decide)).2 rfl rfl⟩

/-- C5.  On the Tag handler, delete is denied with 403 to a non-admin
authenticated user; an admin delete of an existing tag answers 204 and a
subsequent retrieve of that id answers 404; PUT likewise requires the
administrator role, while POST and PATCH require only authentication. -/
theorem tag_destructive_requires_admin (db : Database)
    (u v : AtmosphereUser) (i : Nat) (t0 : Tag)
    (hu1 : u.isAuthenticated = true) (hu2 : u.isStaff = false)
    (hv1 : v.isAuthenticated = true) (hv2 : v.isStaff = true)
    (ht : db.tags.find? (fun t => t.id == i) = some t0) :
    (tagDelete db u i = Except.error ApiError.permissionDenied ∧
        ApiError.status ApiError.permissionDenied = 403) ∧
      tagHasPermission Method.put u = false ∧
      (tagDelete db v i =
          Except.ok ({ db with tags := db.tags.filter (fun t => !(t.id == i)) }, 204) ∧
        tagRetrieve { db with tags := db.tags.filter (fun t => !(t.id == i)) } i =
          Except.error ApiError.notFound ∧
        ApiError.status ApiError.notFound = 404) ∧
      (∀ w : AtmosphereUser,
        tagHasPermission Method.post w = w.isAuthenticated ∧
          tagHasPermission Method.patch w = w.isAuthenticated) := by
  refine ⟨⟨?_, rfl⟩, ?_, ⟨?_, ?_, rfl⟩, ?_⟩
  · simp [tagDelete, tagHasPermission, IsAdminUser, hu1, hu2]
  · simp [tagHasPermission, IsAdminUser, hu1, hu2]
  · simp [tagDelete, tagHasPermission, IsAdminUser, hv1, hv2, ht]
  · have hnone :
        (db.tags.filter (fun t => !(t.id == i))).find? (fun t => t.id == i) = none := by
      rw [List.find?_eq_none]
      intro x hx
      rw [List.mem_filter] at hx
      simpa using hx.2
    simp [tagRetrieve, hnone]
  · intro w
    constructor <;> simp [tagHasPermission, IsAuthenticatedOrReadOnly, Method.isSafe]

/-- Witness for C5 at the fixture database: alice (non-admin) cannot
delete tag 1, root (admin) can, the deleted id is gone afterwards, and an
unauthenticated POST check mirrors the authentication flag. -/
theorem tag_destructive_requires_admin_witness :
    tagDelete exDB uAlice 1 = Except.error ApiError.permissionDenied ∧
      tagHasPermission Method.put uAlice = false ∧
      tagDelete exDB uRoot 1 =
        Except.ok ({ exDB with tags := exDB.tags.filter (fun t => !(t.id == 1)) }, 204) ∧
      tagRetrieve { exDB with tags := exDB.tags.filter (fun t => !(t.id == 1)) } 1 =
        Except.error ApiError.notFound ∧
      tagHasPermission Method.post uAnon = uAnon.isAuthenticated := by
  have h := tag_destructive_requires_admin exDB uAlice uRoot 1 tg1
    rfl rfl rfl rfl rfl
  exact ⟨h.1.1, h.2.1, h.2.2.1.1, h.2.2.1.2.1, (h.2.2.2 uAnon).1⟩

/-- C6.  Every POST, PUT, PATCH or DELETE request to the Provider handler
is rejected with MethodNotAllowed by the http_method_names whitelist,
whatever the requesting user and target; the 405 answer shows the
rejection happens at the transport layer, before any write could run. -/
theorem provider_rejects_unsafe_methods :
    (∀ (db : Database) (now : Nat) (u : AtmosphereUser) (pk : Option Nat),
        providerDispatch db now Method.post u pk =
          Except.error ApiError.methodNotAllowed) ∧
      (∀ (db : Database) (now : Nat) (u : AtmosphereUser) (pk : Option Nat),
        providerDispatch db now Method.put u pk =
          Except.error ApiError.methodNotAllowed) ∧
      (∀ (db : Database) (now : Nat) (u : AtmosphereUser) (pk : Option Nat),
        providerDispatch db now Method.patch u pk =
          Except.error ApiError.methodNotAllowed) ∧
      (∀ (db : Database) (now : Nat) (u : AtmosphereUser) (pk : Option Nat),
        providerDispatch db now Method.delete u pk =
          Except.error ApiError.methodNotAllowed) ∧
      ApiError.status ApiError.methodNotAllowed = 405 := by
  refine ⟨?_, ?_, ?_, ?_, rfl⟩ <;>
    (intro db now u pk
     unfold providerDispatch
     rw [if_neg]
     decide)

/-- C8.  When no project with the requested id is visible to the
requesting user — owned by someone else, or outside its validity window —
the instances and volumes related-list actions answer 404: parent
resolution fails before any relation is fetched. -/
theorem project_related_actions_not_found (db : Database) (now : Nat)
    (u : AtmosphereUser) (pk : Nat)
    (h : ∀ p ∈ db.projects, p.id = pk →
      ¬(p.ownerName = u.username ∧ only_current now p.window = true)) :
    projectInstances db now u pk = Except.error ApiError.notFound ∧
      projectVolumes db now u pk = Except.error ApiError.notFound ∧
      ApiError.status ApiError.notFound = 404 := by
  have hobj : projectGetObject db now u pk = Except.error ApiError.notFound := by
    unfold projectGetObject
    have hnone : (projectGetQueryset db now u).find? (fun p => p.id == pk) = none := by
      rw [List.find?_eq_none]
      intro x hx
      unfold projectGetQueryset at hx
      rw [List.mem_filter] at hx
      obtain ⟨hxm, hxp⟩ := hx
      rw [Bool.and_eq_true] at hxp
      intro hbeq
      exact h x hxm (by simpa using hbeq) ⟨by simpa using hxp.2, hxp.1⟩
    rw [hnone]
  exact ⟨by simp [projectInstances, hobj], by simp [projectVolumes, hobj], rfl⟩

/-- Witness for C8: project 2 is owned by alice but expired at instant 10,
so both related-list actions answer NotFound for alice. -/
theorem project_related_actions_not_found_witness :
    projectInstances exDB 10 uAlice 2 = Except.error ApiError.notFound ∧
      projectVolumes exDB 10 uAlice 2 = Except.error ApiError.notFound ∧
      ApiError.status ApiError.notFound = 404 :=
  project_related_actions_not_found exDB 10 uAlice 2 (by decide)

/-- C9.  The sizes related action returns the full size_set of the
resolved provider with no only_current() filter, while the primary size
list keeps only currently active sizes of visible providers; on the
fixture database the two operations disagree about provider 1, whose
expired size sz2 appears only through the related action. -/
theorem provider_sizes_vs_size_list :
    (∀ (db : Database) (now : Nat) (u : AtmosphereUser) (pk : Nat) (p : Provider),
        providerGetObject db now u pk = Except.ok p →
          providerSizes db now u pk =
            Except.ok (db.sizes.filter (fun s => s.providerId == p.id))) ∧
      (∀ (db : Database) (now : Nat) (u : AtmosphereUser) (qs : List Size),
        sizeGetQueryset db now u = Except.ok qs →
          ∀ s ∈ qs, only_current now s.window = true) ∧
      (providerSizes exDB 10 uAlice 1 = Except.ok [sz1, sz2] ∧
        sizeGetQueryset exDB 10 uAlice = Except.ok [sz1] ∧
        sz2 ∈ ([sz1, sz2] : List Size) ∧ sz2 ∉ ([sz1] : List Size)) := by
  refine ⟨?_, ?_, rfl, rfl, by decide, by decide⟩
  · intro db now u pk p hp
    unfold providerSizes
    rw [hp]
  · intro db now u qs hq s hs
    unfold sizeGetQueryset at hq
    cases hgroup : getGroupByName db u.username with
    | error e => rw [hgroup] at hq; cases hq
    | ok g =>
        rw [hgroup] at hq
        simp only [Except.ok.injEq] at hq
        subst hq
        rw [List.mem_filter] at hs
        have hpred := hs.2
        rw [Bool.and_eq_true] at hpred
        exact hpred.1

/-- Witness for C9: the universal part applied to the fixture database,
where provider 1 resolves for alice and size sz1 is currently active. -/
theorem provider_sizes_vs_size_list_witness :
    providerSizes exDB 10 uAlice 1 = Except.ok [sz1, sz2] ∧
      only_current 10 sz1.window = true := by
  constructor
  · have h := provider_sizes_vs_size_list.1 exDB 10 uAlice 1 pv1 rfl
    exact h.trans rfl
  · exact provider_sizes_vs_size_list.2.1 exDB 10 uAlice [sz1] rfl sz1 (by decide)

/-- C10.  ImageBookmark creation does not stamp the requesting user:
creating a bookmark as alice with a payload designating bob persists a row
whose user is bob, which alice then cannot see through the list or
retrieve operations, even though the row is in the table — unlike Tag
creation, which records alice regardless of the payload. -/
theorem image_bookmark_create_keeps_payload_user :
    (imageBookmarkPerformCreate exDB uAlice { user := "bob" } 7).2.user = "bob" ∧
      "bob" ≠ uAlice.username ∧
      (imageBookmarkPerformCreate exDB uAlice { user := "bob" } 7).2 ∈
        (imageBookmarkPerformCreate exDB uAlice { user := "bob" } 7).1.imageBookmarks ∧
      (imageBookmarkPerformCreate exDB uAlice { user := "bob" } 7).2 ∉
        imageBookmarkGetQueryset
          (imageBookmarkPerformCreate exDB uAlice { user := "bob" } 7).1 uAlice ∧
      imageBookmarkGetObject
          (imageBookmarkPerformCreate exDB uAlice { user := "bob" } 7).1 uAlice 7 =
        Except.error ApiError.notFound ∧
      (tagPerformCreate exDB uAlice { name := "x", user := some "bob" } 7).2.user =
        uAlice.username :=
  ⟨rfl, by decide, by decide, by decide, rfl, rfl⟩

end Atmosphere
